import Mathlib

/-!
Shallow embedding of the checkhim Go SDK (src/checkhim.go) in Lean 4.

The SDK is a thin HTTP client: `New` builds a `Client` from an API key and
optional `Config` overrides; `VerifyWithContext` validates the phone number,
marshals an internal wire request to JSON, issues one HTTP POST, and maps the
response (status code + body) to either a parsed `VerifyResponse` or an error.

The embedding models:
  * JSON values as an inductive `Json`, with an executable parser mirroring
    the syntax of the encoding/json package (a body is valid JSON iff `parseJson` succeeds),
  * the `json.Marshal` call on the internal request struct as a string builder
    using the escaping rules of the Go encoder,
  * the `json.Unmarshal` calls into the `ErrorResponse` / `VerifyResponse` structs
    as decoders over the `Json` AST (a JSON `null` or an object decodes, with
    missing fields keeping their zero values; any other shape fails),
  * the HTTP transport as a function from the built request to an outcome
    (transport failure, or a status code plus body); the network calls that
    `VerifyWithContext` performs are recorded in the `calls` trace of the result.
-/

namespace Checkhim

/-- JSON value AST. Numeric literals are kept as their source text: the SDK
shapes contain no numeric fields, so only the shape matters. -/
inductive Json where
  | null : Json
  | bool (b : Bool) : Json
  | num (lit : String) : Json
  | str (s : String) : Json
  | arr (elems : List Json) : Json
  | obj (fields : List (String × Json)) : Json

/-- Skip JSON whitespace (space, tab, newline, carriage return). -/
def skipWs : List Char → List Char
  | c :: cs =>
      if c = ' ' ∨ c = '\t' ∨ c = '\n' ∨ c = '\r' then skipWs cs else c :: cs
  | [] => []

/-- Value of a hexadecimal digit character. -/
def hexVal (c : Char) : Option Nat :=
  if '0' ≤ c ∧ c ≤ '9' then some (c.toNat - 48)
  else if 'a' ≤ c ∧ c ≤ 'f' then some (c.toNat - 87)
  else if 'A' ≤ c ∧ c ≤ 'F' then some (c.toNat - 55)
  else none

/-- Parse the characters of a JSON string literal after the opening quote,
returning the decoded characters and the remainder after the closing quote.
Raw control characters are rejected, escapes are decoded, as in
`encoding/json` (surrogate pairing is not modelled; the SDK never emits it). -/
def parseStringChars : List Char → Option (List Char × List Char)
  | [] => none
  | '"' :: rest => some ([], rest)
  | '\\' :: esc =>
      match esc with
      | '"' :: rest => (parseStringChars rest).map (fun p => ('"' :: p.1, p.2))
      | '\\' :: rest => (parseStringChars rest).map (fun p => ('\\' :: p.1, p.2))
      | '/' :: rest => (parseStringChars rest).map (fun p => ('/' :: p.1, p.2))
      | 'b' :: rest => (parseStringChars rest).map (fun p => ('\x08' :: p.1, p.2))
      | 'f' :: rest => (parseStringChars rest).map (fun p => ('\x0c' :: p.1, p.2))
      | 'n' :: rest => (parseStringChars rest).map (fun p => ('\n' :: p.1, p.2))
      | 'r' :: rest => (parseStringChars rest).map (fun p => ('\r' :: p.1, p.2))
      | 't' :: rest => (parseStringChars rest).map (fun p => ('\t' :: p.1, p.2))
      | 'u' :: h1 :: h2 :: h3 :: h4 :: rest =>
          match hexVal h1, hexVal h2, hexVal h3, hexVal h4 with
          | some a, some b, some c, some d =>
              (parseStringChars rest).map
                (fun p => (Char.ofNat (((a * 16 + b) * 16 + c) * 16 + d) :: p.1, p.2))
          | _, _, _, _ => none
      | _ => none
  | c :: rest =>
      if c.toNat < 32 then none
      else (parseStringChars rest).map (fun p => (c :: p.1, p.2))

/-- Parse a JSON number literal, returning its source text and the rest. -/
def parseNumber (cs : List Char) : Option (String × List Char) :=
  let signDone : List Char × List Char :=
    match cs with
    | '-' :: rest => (['-'], rest)
    | _ => ([], cs)
  let sign := signDone.1
  let afterSign := signDone.2
  let intDone : Option (List Char × List Char) :=
    match afterSign with
    | '0' :: rest => some (['0'], rest)
    | c :: _ =>
        if c.isDigit then
          some (afterSign.takeWhile Char.isDigit, afterSign.dropWhile Char.isDigit)
        else none
    | [] => none
  match intDone with
  | none => none
  | some (intPart, afterInt) =>
      let fracDone : Option (List Char × List Char) :=
        match afterInt with
        | '.' :: rest =>
            match rest with
            | c :: _ =>
                if c.isDigit then
                  some ('.' :: rest.takeWhile Char.isDigit, rest.dropWhile Char.isDigit)
                else none
            | [] => none
        | _ => some ([], afterInt)
      match fracDone with
      | none => none
      | some (fracPart, afterFrac) =>
          let expDone : Option (List Char × List Char) :=
            match afterFrac with
            | e :: rest =>
                if e = 'e' ∨ e = 'E' then
                  let signRest : List Char × List Char :=
                    match rest with
                    | s :: rest2 => if s = '+' ∨ s = '-' then ([e, s], rest2) else ([e], rest)
                    | [] => ([e], [])
                  match signRest.2 with
                  | c :: _ =>
                      if c.isDigit then
                        some (signRest.1 ++ signRest.2.takeWhile Char.isDigit,
                              signRest.2.dropWhile Char.isDigit)
                      else none
                  | [] => none
                else some ([], afterFrac)
            | [] => some ([], afterFrac)
          match expDone with
          | none => none
          | some (expPart, afterExp) =>
              some (String.mk (sign ++ intPart ++ fracPart ++ expPart), afterExp)

mutual

/-- Parse one JSON value (fuel-indexed for termination). -/
def parseValue : Nat → List Char → Option (Json × List Char)
  | 0, _ => none
  | fuel + 1, cs =>
      match skipWs cs with
      | 'n' :: 'u' :: 'l' :: 'l' :: rest => some (Json.null, rest)
      | 't' :: 'r' :: 'u' :: 'e' :: rest => some (Json.bool true, rest)
      | 'f' :: 'a' :: 'l' :: 's' :: 'e' :: rest => some (Json.bool false, rest)
      | '"' :: rest =>
          (parseStringChars rest).map (fun p => (Json.str (String.mk p.1), p.2))
      | c :: rest =>
          if c = '\x7b' then
            match skipWs rest with
            | c2 :: rest2 =>
                if c2 = '\x7d' then some (Json.obj [], rest2)
                else
                  (parseMembers fuel (c2 :: rest2)).map
                    (fun p => (Json.obj p.1, p.2))
            | [] => none
          else if c = '[' then
            match skipWs rest with
            | ']' :: rest2 => some (Json.arr [], rest2)
            | rest1 => (parseElements fuel rest1).map (fun p => (Json.arr p.1, p.2))
          else
            (parseNumber (c :: rest)).map (fun p => (Json.num p.1, p.2))
      | [] => none

/-- Parse one or more comma-separated array elements, then the closing bracket. -/
def parseElements : Nat → List Char → Option (List Json × List Char)
  | 0, _ => none
  | fuel + 1, cs =>
      match parseValue fuel cs with
      | none => none
      | some (v, rest) =>
          match skipWs rest with
          | ',' :: rest2 =>
              (parseElements fuel rest2).map (fun p => (v :: p.1, p.2))
          | ']' :: rest2 => some ([v], rest2)
          | _ => none

/-- Parse one or more comma-separated object members, then the closing brace. -/
def parseMembers : Nat → List Char → Option (List (String × Json) × List Char)
  | 0, _ => none
  | fuel + 1, cs =>
      match skipWs cs with
      | '"' :: rest =>
          match parseStringChars rest with
          | none => none
          | some (key, rest1) =>
              match skipWs rest1 with
              | ':' :: rest2 =>
                  match parseValue fuel rest2 with
                  | none => none
                  | some (v, rest3) =>
                      match skipWs rest3 with
                      | ',' :: rest4 =>
                          (parseMembers fuel rest4).map
                            (fun p => ((String.mk key, v) :: p.1, p.2))
                      | c :: rest4 =>
                          if c = '\x7d' then some ([(String.mk key, v)], rest4)
                          else none
                      | [] => none
              | _ => none
      | _ => none

end

/-- `encoding/json` top level: the input must be exactly one JSON value,
optionally surrounded by whitespace. -/
def parseJson (s : String) : Option Json :=
  match parseValue (s.length + 1) s.data with
  | some (v, rest) => if skipWs rest = [] then some v else none
  | none => none

/-! ## Data model (src/checkhim.go) -/

/-- `DefaultBaseURL` is the default base URL for the CheckHim API
(source: `"http://api.checkhim.tech"`). -/
def DefaultBaseURL : String := "http://api.checkhim.tech"

/-- One second of `time.Duration`, in nanoseconds (the Go constant `time.Second`). -/
def timeSecond : Int := 1000000000

/-- `DefaultTimeout` is the default timeout for HTTP requests
(source: `30 * time.Second`). -/
def DefaultTimeout : Int := 30 * timeSecond

/-- Model of the Go `http.Client` as far as the SDK observes it: the SDK only
ever sets its `Timeout` and hands it requests, so the model keeps the timeout
and an identity tag distinguishing caller-supplied clients. -/
structure HTTPClient where
  Timeout : Int
  tag : Nat := 0
deriving DecidableEq

/-- `Client` represents a CheckHim API client. -/
structure Client where
  apiKey : String
  baseURL : String
  httpClient : HTTPClient
deriving DecidableEq

/-- `Config` holds configuration options for the `Client`; zero values
(`""`, non-positive duration, `nil` pointer) mean "not supplied". -/
structure Config where
  BaseURL : String
  Timeout : Int
  HTTPClient : Option HTTPClient
deriving DecidableEq

/-- `New` creates a new CheckHim client with the provided API key. The Go
variadic `configs ...Config` parameter is a list; only `configs[0]` is ever
inspected. -/
def New (apiKey : String) (configs : List Config) : Client :=
  let config0 : Config :=
    { BaseURL := DefaultBaseURL, Timeout := DefaultTimeout, HTTPClient := none }
  let config : Config :=
    match configs with
    | [] => config0
    | c :: _ =>
        { BaseURL := if c.BaseURL ≠ "" then c.BaseURL else config0.BaseURL
          Timeout := if c.Timeout > 0 then c.Timeout else config0.Timeout
          HTTPClient := if c.HTTPClient.isSome then c.HTTPClient else config0.HTTPClient }
  let httpClient : HTTPClient :=
    match config.HTTPClient with
    | some hc => hc
    | none => { Timeout := config.Timeout }
  { apiKey := apiKey, baseURL := config.BaseURL, httpClient := httpClient }

/-- `VerifyRequest` represents a phone number verification request. -/
structure VerifyRequest where
  Number : String
deriving DecidableEq

/-- `internalVerifyRequest` is the internal request structure sent to the API
(`Type` is renamed `type` since Lean reserves the capitalized word). -/
structure internalVerifyRequest where
  Number : String
  type : String
deriving DecidableEq

/-- `VerifyResponse` represents the response from a phone number verification. -/
structure VerifyResponse where
  Carrier : String
  Valid : Bool
deriving DecidableEq

/-- `ErrorResponse` represents an error response from the API. `Details`
models the Go map of string to empty interface: `none` is the nil map, decoded objects
keep their members in source order. -/
structure ErrorResponse where
  Error : String
  Code : String
  Details : Option (List (String × Json))

/-- `APIError` represents an API error. -/
structure APIError where
  StatusCode : Nat
  Message : String
  Code : String
  Details : Option (List (String × Json))

/-- The non-`APIError` errors `VerifyWithContext` can build: each constructor
is one `fmt.Errorf("...: %w", err)` site, carrying the wrapped cause where the
model has one. (`failed to marshal request` and `failed to create request`
cannot fire in the model: marshalling a struct of strings never fails and the
method/URL are well-formed; `failed to read response body` is likewise below
the transport abstraction, which yields bodies as whole strings.) -/
inductive GoError where
  | api (e : APIError)
  | executeFailed (cause : String)
  | unmarshalFailed
  | readFailed (cause : String)

/-- One HTTP request as the SDK builds it. -/
structure HTTPRequest where
  method : String
  url : String
  headers : List (String × String)
  body : String

/-- Outcome of `c.httpClient.Do(httpReq)` plus the body read: either the
transport errors, or the body read errors, or a status code and full body. -/
inductive DoOutcome where
  | failure (cause : String)
  | bodyReadFailure (statusCode : Nat) (cause : String)
  | response (statusCode : Nat) (body : String)

/-- Result of a verify call: the Go `(*VerifyResponse, error)` pair, plus the
trace of network calls performed (each `httpClient.Do` in order). -/
structure VerifyResult where
  resp : Option VerifyResponse
  err : Option GoError
  calls : List HTTPRequest

/-! ## Go JSON marshalling and unmarshalling for the SDK shapes -/

/-- Lowercase hexadecimal digit. -/
def hexDigit (n : Nat) : Char :=
  if n < 10 then Char.ofNat (48 + n) else Char.ofNat (87 + n)

/-- The encoding/json escaping of one character inside a string literal
(HTML escaping on, as under plain `json.Marshal`). -/
def encodeGoChar (c : Char) : List Char :=
  if c = '"' then ['\\', '"']
  else if c = '\\' then ['\\', '\\']
  else if c = '\n' then ['\\', 'n']
  else if c = '\r' then ['\\', 'r']
  else if c = '\t' then ['\\', 't']
  else if c.toNat < 32 then
    ['\\', 'u', '0', '0', hexDigit (c.toNat / 16), hexDigit (c.toNat % 16)]
  else if c = '<' ∨ c = '>' ∨ c = '&' then
    ['\\', 'u', '0', '0', hexDigit (c.toNat / 16), hexDigit (c.toNat % 16)]
  else if c.toNat = 0x2028 ∨ c.toNat = 0x2029 then
    ['\\', 'u', '2', '0', '2', hexDigit (c.toNat % 16)]
  else [c]

/-- The encoding/json rendering of a Go string as a JSON string literal. -/
def encodeGoString (s : String) : String :=
  "\"" ++ String.mk (s.data.flatMap encodeGoChar) ++ "\""

/-- `json.Marshal` of `internalVerifyRequest`: fields in struct order with
their `json:"..."` names. -/
def marshalInternalVerifyRequest (r : internalVerifyRequest) : String :=
  "\x7b\"number\":" ++ encodeGoString r.Number ++
    ",\"type\":" ++ encodeGoString r.type ++ "\x7d"

/-- Look up an object member; as in `encoding/json`, on duplicate keys the
last value wins. -/
def lookupLast (fields : List (String × Json)) (key : String) : Option Json :=
  fields.foldl (fun acc kv => if kv.1 = key then some kv.2 else acc) none

/-- Decode a JSON member into a Go `string` field: an absent member or a JSON
`null` leaves the zero value, a string sets it, any other shape errors. -/
def decodeStringField : Option Json → Option String
  | none => some ""
  | some Json.null => some ""
  | some (Json.str s) => some s
  | some _ => none

/-- Decode a JSON member into a Go `bool` field. -/
def decodeBoolField : Option Json → Option Bool
  | none => some false
  | some Json.null => some false
  | some (Json.bool b) => some b
  | some _ => none

/-- Decode a JSON member into a Go `map[string]interface{}` field: absent or
`null` leaves the nil map, an object fills it, any other shape errors. -/
def decodeDetailsField : Option Json → Option (Option (List (String × Json)))
  | none => some none
  | some Json.null => some none
  | some (Json.obj fields) => some (some fields)
  | some _ => none

/-- `json.Unmarshal` into `ErrorResponse`: the top-level value must be an
object (or `null`, which leaves the struct zero-valued); recognised members
must have compatible types; unknown members are ignored. -/
def decodeErrorResponse : Json → Option ErrorResponse
  | Json.null => some { Error := "", Code := "", Details := none }
  | Json.obj fields => do
      let e ← decodeStringField (lookupLast fields "error")
      let c ← decodeStringField (lookupLast fields "code")
      let d ← decodeDetailsField (lookupLast fields "details")
      some { Error := e, Code := c, Details := d }
  | _ => none

/-- `json.Unmarshal` into `VerifyResponse`. -/
def decodeVerifyResponse : Json → Option VerifyResponse
  | Json.null => some { Carrier := "", Valid := false }
  | Json.obj fields => do
      let carrier ← decodeStringField (lookupLast fields "carrier")
      let valid ← decodeBoolField (lookupLast fields "valid")
      some { Carrier := carrier, Valid := valid }
  | _ => none

/-- `json.Unmarshal` into `internalVerifyRequest`, as the service side (or the
mock server of the tests) decodes the wire body. -/
def decodeInternalVerifyRequest : Json → Option internalVerifyRequest
  | Json.null => some { Number := "", type := "" }
  | Json.obj fields => do
      let n ← decodeStringField (lookupLast fields "number")
      let t ← decodeStringField (lookupLast fields "type")
      some { Number := n, type := t }
  | _ => none

/-- `json.Unmarshal(body, &errorResp)` on a raw body. -/
def unmarshalErrorResponse (body : String) : Option ErrorResponse :=
  (parseJson body).bind decodeErrorResponse

/-- `json.Unmarshal(body, &verifyResp)` on a raw body. -/
def unmarshalVerifyResponse (body : String) : Option VerifyResponse :=
  (parseJson body).bind decodeVerifyResponse

/-- `json.Unmarshal` of the wire body into the internal request shape. -/
def unmarshalInternalVerifyRequest (body : String) : Option internalVerifyRequest :=
  (parseJson body).bind decodeInternalVerifyRequest

/-! ## The verify operation -/

/-- `VerifyWithContext` verifies a phone number with a custom context. The
transport (`c.httpClient.Do` plus the body read) is a function from the built
request to a `DoOutcome`; every request handed to it is recorded in `calls`.
The cancellation context itself has no observable effect beyond the transport
outcomes already covered by `DoOutcome.failure`, so it is not reified. -/
def VerifyWithContext (c : Client) (transport : HTTPRequest → DoOutcome)
    (req : VerifyRequest) : VerifyResult :=
  if req.Number = "" then
    { resp := none
      err := some (GoError.api
        { StatusCode := 400, Message := "phone number is required",
          Code := "invalid_request", Details := none })
      calls := [] }
  else
    let internalReq : internalVerifyRequest := { Number := req.Number, type := "frontend" }
    let reqBody := marshalInternalVerifyRequest internalReq
    let url := c.baseURL ++ "/api/verify"
    let httpReq : HTTPRequest :=
      { method := "POST", url := url
        headers :=
          [("Authorization", "Bearer " ++ c.apiKey),
           ("Content-Type", "application/json"),
           ("User-Agent", "checkhim-go-sdk/1.0")]
        body := reqBody }
    match transport httpReq with
    | DoOutcome.failure cause =>
        { resp := none, err := some (GoError.executeFailed cause), calls := [httpReq] }
    | DoOutcome.bodyReadFailure _ cause =>
        { resp := none, err := some (GoError.readFailed cause), calls := [httpReq] }
    | DoOutcome.response statusCode body =>
        if statusCode ≠ 200 then
          match unmarshalErrorResponse body with
          | some errorResp =>
              { resp := none
                err := some (GoError.api
                  { StatusCode := statusCode, Message := errorResp.Error,
                    Code := errorResp.Code, Details := errorResp.Details })
                calls := [httpReq] }
          | none =>
              { resp := none
                err := some (GoError.api
                  { StatusCode := statusCode, Message := body, Code := "",
                    Details := none })
                calls := [httpReq] }
        else
          match unmarshalVerifyResponse body with
          | some verifyResp => { resp := some verifyResp, err := none, calls := [httpReq] }
          | none => { resp := none, err := some GoError.unmarshalFailed, calls := [httpReq] }

/-- `Verify` verifies a phone number using the CheckHim API; it delegates to
`VerifyWithContext` with the background context. -/
def Verify (c : Client) (transport : HTTPRequest → DoOutcome)
    (req : VerifyRequest) : VerifyResult :=
  VerifyWithContext c transport req

/-! ## Theorems -/

/-- C1: for every request whose phone number is the empty string,
`VerifyWithContext` (and `Verify`, which delegates to it) returns no response
value and an `APIError`-shaped failure with status 400, message
"phone number is required" and code "invalid_request", and performs no
network call (the call trace is empty). -/
theorem verify_empty_number_precondition (c : Client)
    (transport : HTTPRequest → DoOutcome) (req : VerifyRequest)
    (h : req.Number = "") :
    VerifyWithContext c transport req =
      { resp := none
        err := some (GoError.api
          { StatusCode := 400, Message := "phone number is required",
            Code := "invalid_request", Details := none })
        calls := [] } ∧
    Verify c transport req = VerifyWithContext c transport req := by
  constructor
  · simp [VerifyWithContext, h]
  · rfl

/-- Witness for C1 at the empty phone number. -/
theorem verify_empty_number_precondition_witness :
    ({ Number := "" } : VerifyRequest).Number = "" ∧
    (VerifyWithContext (New "test-api-key" []) (fun _ => DoOutcome.response 200 "null")
        { Number := "" } =
      { resp := none
        err := some (GoError.api
          { StatusCode := 400, Message := "phone number is required",
            Code := "invalid_request", Details := none })
        calls := [] } ∧
     Verify (New "test-api-key" []) (fun _ => DoOutcome.response 200 "null")
        { Number := "" } =
      VerifyWithContext (New "test-api-key" []) (fun _ => DoOutcome.response 200 "null")
        { Number := "" }) :=
  ⟨rfl, verify_empty_number_precondition _ _ _ rfl⟩

/-- C2: the spec and the repository documentation (CHANGELOG, security
policy) promise HTTPS by default, but the source constant `DefaultBaseURL`
is the plain-http URL, so a client built with no configuration override
POSTs to a target whose scheme is http, not https. -/
theorem default_base_url_scheme_is_plain_http :
    DefaultBaseURL = "http://api.checkhim.tech" ∧
    (New "key" []).baseURL = DefaultBaseURL ∧
    ((VerifyWithContext (New "key" [])
        (fun _ => DoOutcome.response 200 "null")
        { Number := "+1234567890" }).calls.map HTTPRequest.url =
      ["http://api.checkhim.tech/api/verify"]) ∧
    DefaultBaseURL.take 5 ≠ "https" :=
  ⟨rfl, rfl, rfl, by decide⟩

/-- C3: for every non-empty phone number, exactly one wire request is issued:
an HTTP POST to baseURL ++ "/api/verify" whose headers are the bearer
authorization with the stored credential, the JSON content type and the fixed
client identifier, and whose body is the JSON object with the number and the
fixed "frontend" discriminator. -/
theorem verify_wire_request (c : Client) (transport : HTTPRequest → DoOutcome)
    (n : String) (h : n ≠ "") :
    (VerifyWithContext c transport { Number := n }).calls =
      [{ method := "POST"
         url := c.baseURL ++ "/api/verify"
         headers :=
           [("Authorization", "Bearer " ++ c.apiKey),
            ("Content-Type", "application/json"),
            ("User-Agent", "checkhim-go-sdk/1.0")]
         body := "\x7b\"number\":" ++ encodeGoString n ++ ",\"type\":\"frontend\"\x7d" }] := by
  have hfe : (",\"type\":" : String) ++ (encodeGoString "frontend" ++ "\x7d") =
      ",\"type\":\"frontend\"\x7d" := rfl
  have hbody : marshalInternalVerifyRequest { Number := n, type := "frontend" } =
      "\x7b\"number\":" ++ encodeGoString n ++ ",\"type\":\"frontend\"\x7d" := by
    simp only [marshalInternalVerifyRequest, String.append_assoc, hfe]
  unfold VerifyWithContext
  rw [if_neg h]
  dsimp only
  rw [hbody]
  split <;> first | rfl | (split <;> first | rfl | (split <;> rfl))

/-- Witness for C3 at a concrete client and number. -/
theorem verify_wire_request_witness :
    ("+1234567890" : String) ≠ "" ∧
    (VerifyWithContext (New "test-api-key" [])
        (fun _ => DoOutcome.response 200 "null") { Number := "+1234567890" }).calls =
      [{ method := "POST"
         url := (New "test-api-key" []).baseURL ++ "/api/verify"
         headers :=
           [("Authorization", "Bearer " ++ (New "test-api-key" []).apiKey),
            ("Content-Type", "application/json"),
            ("User-Agent", "checkhim-go-sdk/1.0")]
         body := "\x7b\"number\":" ++ encodeGoString "+1234567890" ++ ",\"type\":\"frontend\"\x7d" }] :=
  ⟨by decide, verify_wire_request _ _ _ (by decide)⟩

/-- C4: for every non-200 response whose body unmarshals as the structured
error payload, `VerifyWithContext` returns no response and an `APIError`
whose status is the HTTP status and whose message, code and details are the
payload fields. -/
theorem verify_non200_structured_error (c : Client) (n : String)
    (status : Nat) (body : String) (er : ErrorResponse)
    (hn : n ≠ "") (hs : status ≠ 200)
    (hp : unmarshalErrorResponse body = some er) :
    (VerifyWithContext c (fun _ => DoOutcome.response status body)
        { Number := n }).err =
      some (GoError.api
        { StatusCode := status, Message := er.Error, Code := er.Code,
          Details := er.Details }) ∧
    (VerifyWithContext c (fun _ => DoOutcome.response status body)
        { Number := n }).resp = none := by
  unfold VerifyWithContext
  rw [if_neg hn]
  dsimp only
  rw [if_pos hs, hp]
  exact ⟨rfl, rfl⟩

/-- Witness for C4: status 401 with the well-formed unauthorized body from
the spec yields exactly that APIError. -/
theorem verify_non200_structured_error_witness :
    ("+1234567890" : String) ≠ "" ∧ (401 : Nat) ≠ 200 ∧
    unmarshalErrorResponse "\x7b\"error\":\"Invalid API key\",\"code\":\"unauthorized\"\x7d" =
      some { Error := "Invalid API key", Code := "unauthorized", Details := none } ∧
    ((VerifyWithContext (New "invalid-key" [])
        (fun _ => DoOutcome.response 401 "\x7b\"error\":\"Invalid API key\",\"code\":\"unauthorized\"\x7d")
        { Number := "+1234567890" }).err =
      some (GoError.api
        { StatusCode := 401, Message := "Invalid API key", Code := "unauthorized",
          Details := none }) ∧
     (VerifyWithContext (New "invalid-key" [])
        (fun _ => DoOutcome.response 401 "\x7b\"error\":\"Invalid API key\",\"code\":\"unauthorized\"\x7d")
        { Number := "+1234567890" }).resp = none) :=
  ⟨by decide, by decide, rfl,
   verify_non200_structured_error (New "invalid-key" []) "+1234567890" 401
     "\x7b\"error\":\"Invalid API key\",\"code\":\"unauthorized\"\x7d"
     { Error := "Invalid API key", Code := "unauthorized", Details := none }
     (by decide) (by decide) rfl⟩

/-- C5: for every non-200 response whose body does not unmarshal as the
structured error payload, `VerifyWithContext` returns no response and an
`APIError` whose message is the raw body text, whose code is empty and whose
status is the HTTP status. -/
theorem verify_non200_raw_body_error (c : Client) (n : String)
    (status : Nat) (body : String)
    (hn : n ≠ "") (hs : status ≠ 200)
    (hp : unmarshalErrorResponse body = none) :
    (VerifyWithContext c (fun _ => DoOutcome.response status body)
        { Number := n }).err =
      some (GoError.api
        { StatusCode := status, Message := body, Code := "", Details := none }) ∧
    (VerifyWithContext c (fun _ => DoOutcome.response status body)
        { Number := n }).resp = none := by
  unfold VerifyWithContext
  rw [if_neg hn]
  dsimp only
  rw [if_pos hs, hp]
  exact ⟨rfl, rfl⟩

/-- Witness for C5: status 500 with the body "invalid json". -/
theorem verify_non200_raw_body_error_witness :
    ("+1234567890" : String) ≠ "" ∧ (500 : Nat) ≠ 200 ∧
    unmarshalErrorResponse "invalid json" = none ∧
    ((VerifyWithContext (New "test-api-key" [])
        (fun _ => DoOutcome.response 500 "invalid json")
        { Number := "+1234567890" }).err =
      some (GoError.api
        { StatusCode := 500, Message := "invalid json", Code := "", Details := none }) ∧
     (VerifyWithContext (New "test-api-key" [])
        (fun _ => DoOutcome.response 500 "invalid json")
        { Number := "+1234567890" }).resp = none) :=
  ⟨by decide, by decide, rfl,
   verify_non200_raw_body_error (New "test-api-key" []) "+1234567890" 500
     "invalid json" (by decide) (by decide) rfl⟩

/-- C6: for every 200 response whose body does not unmarshal as the
`VerifyResponse` shape, `VerifyWithContext` returns no success result and a
deserialization error that is not an `APIError`. -/
theorem verify_200_unparsable_body (c : Client) (n : String) (body : String)
    (hn : n ≠ "") (hp : unmarshalVerifyResponse body = none) :
    (VerifyWithContext c (fun _ => DoOutcome.response 200 body)
        { Number := n }).err = some GoError.unmarshalFailed ∧
    (VerifyWithContext c (fun _ => DoOutcome.response 200 body)
        { Number := n }).resp = none ∧
    (∀ e : APIError,
      (VerifyWithContext c (fun _ => DoOutcome.response 200 body)
        { Number := n }).err ≠ some (GoError.api e)) := by
  unfold VerifyWithContext
  rw [if_neg hn]
  dsimp only
  rw [if_neg (by simp : ¬ (200 : Nat) ≠ 200), hp]
  exact ⟨rfl, rfl, fun e he => by simp at he⟩

/-- Witness for C6 at the body "invalid json". -/
theorem verify_200_unparsable_body_witness :
    ("+1234567890" : String) ≠ "" ∧
    unmarshalVerifyResponse "invalid json" = none ∧
    ((VerifyWithContext (New "test-api-key" [])
        (fun _ => DoOutcome.response 200 "invalid json")
        { Number := "+1234567890" }).err = some GoError.unmarshalFailed ∧
     (VerifyWithContext (New "test-api-key" [])
        (fun _ => DoOutcome.response 200 "invalid json")
        { Number := "+1234567890" }).resp = none ∧
     (∀ e : APIError,
       (VerifyWithContext (New "test-api-key" [])
          (fun _ => DoOutcome.response 200 "invalid json")
          { Number := "+1234567890" }).err ≠ some (GoError.api e))) :=
  ⟨by decide, rfl,
   verify_200_unparsable_body (New "test-api-key" []) "+1234567890" "invalid json"
     (by decide) rfl⟩

/-- C7: the wire body built for the number "+5511984339000", decoded as the
service side decodes it, recovers exactly that number string and the fixed
discriminator value "frontend". -/
theorem wire_request_roundtrip :
    ((VerifyWithContext (New "your-api-key" [])
        (fun _ => DoOutcome.response 200 "null")
        { Number := "+5511984339000" }).calls.map
      (fun q => unmarshalInternalVerifyRequest q.body)) =
      [some { Number := "+5511984339000", type := "frontend" }] := rfl

/-- C8: for every input request and every transport and parsing outcome,
`VerifyWithContext` returns a response value and an error of which exactly
one is present, never both. -/
theorem verify_mutual_exclusion (c : Client)
    (transport : HTTPRequest → DoOutcome) (req : VerifyRequest) :
    ((VerifyWithContext c transport req).resp.isSome = true ∧
      (VerifyWithContext c transport req).err = none) ∨
    ((VerifyWithContext c transport req).resp = none ∧
      (VerifyWithContext c transport req).err.isSome = true) := by
  unfold VerifyWithContext
  by_cases h : req.Number = ""
  · simp [h]
  · simp only [h, if_false, if_neg h]
    split
    · simp
    · simp
    · split
      · split <;> simp
      · split <;> simp

/-- C9: `New` defaults the endpoint to `DefaultBaseURL` and the timeout to
`DefaultTimeout` (30 seconds), honored by the internally constructed
transport when none is supplied; each `Config` field overrides its default
independently of the others, and only the first of multiple configurations
is applied. -/
theorem new_defaults_and_overrides (apiKey : String) (cfg : Config)
    (rest : List Config) :
    New apiKey [] =
      { apiKey := apiKey, baseURL := DefaultBaseURL,
        httpClient := { Timeout := DefaultTimeout } } ∧
    DefaultTimeout = 30 * timeSecond ∧
    New apiKey (cfg :: rest) = New apiKey [cfg] ∧
    (New apiKey [cfg]).apiKey = apiKey ∧
    (New apiKey [cfg]).baseURL =
      (if cfg.BaseURL = "" then DefaultBaseURL else cfg.BaseURL) ∧
    (New apiKey [cfg]).httpClient =
      (match cfg.HTTPClient with
       | some hc => hc
       | none =>
          { Timeout := if cfg.Timeout > 0 then cfg.Timeout else DefaultTimeout }) := by
  refine ⟨rfl, rfl, rfl, rfl, ?_, ?_⟩
  · by_cases hb : cfg.BaseURL = "" <;> simp [New, hb]
  · cases hc : cfg.HTTPClient <;>
      by_cases ht : cfg.Timeout > 0 <;> simp [New, hc, ht]

/-- C10 counterexample: the non-200 body with a code but no error member
decodes into the error-payload shape, yet the returned `APIError` carries
the non-empty code "unauthorized", refuting the claim that the code is
always empty in this situation. -/
theorem non200_decoded_code_not_always_empty :
    unmarshalErrorResponse "\x7b\"code\":\"unauthorized\"\x7d" =
      some { Error := "", Code := "unauthorized", Details := none } ∧
    (VerifyWithContext (New "test-api-key" [])
        (fun _ => DoOutcome.response 500 "\x7b\"code\":\"unauthorized\"\x7d")
        { Number := "+1234567890" }).err =
      some (GoError.api
        { StatusCode := 500, Message := "", Code := "unauthorized", Details := none }) ∧
    ("unauthorized" : String) ≠ "" :=
  ⟨rfl, rfl, by decide⟩

/-- C10 (amended): for every non-200 response whose body decodes into the
error-payload shape with an empty (absent) error member, `VerifyWithContext`
returns an `APIError` carrying the HTTP status with an empty message and the
code and details of the decoded payload; the raw-body fallback is not taken
(the body, being valid JSON, is non-empty while the message is empty). -/
theorem verify_non200_no_error_field (c : Client) (n : String)
    (status : Nat) (body : String) (er : ErrorResponse)
    (hn : n ≠ "") (hs : status ≠ 200)
    (hp : unmarshalErrorResponse body = some er) (he : er.Error = "") :
    (VerifyWithContext c (fun _ => DoOutcome.response status body)
        { Number := n }).err =
      some (GoError.api
        { StatusCode := status, Message := "", Code := er.Code,
          Details := er.Details }) ∧
    (VerifyWithContext c (fun _ => DoOutcome.response status body)
        { Number := n }).resp = none ∧
    body ≠ "" := by
  refine ⟨?_, ?_, ?_⟩
  · unfold VerifyWithContext
    rw [if_neg hn]
    dsimp only
    rw [if_pos hs, hp, ← he]
  · unfold VerifyWithContext
    rw [if_neg hn]
    dsimp only
    rw [if_pos hs, hp]
  · intro hb
    rw [hb] at hp
    exact Option.noConfusion hp

/-- Witness for the amended C10 at the empty-object body. -/
theorem verify_non200_no_error_field_witness :
    ("+1234567890" : String) ≠ "" ∧ (500 : Nat) ≠ 200 ∧
    unmarshalErrorResponse "\x7b\x7d" =
      some { Error := "", Code := "", Details := none } ∧
    ({ Error := "", Code := "", Details := none } : ErrorResponse).Error = "" ∧
    ((VerifyWithContext (New "test-api-key" [])
        (fun _ => DoOutcome.response 500 "\x7b\x7d")
        { Number := "+1234567890" }).err =
      some (GoError.api
        { StatusCode := 500, Message := "", Code := "", Details := none }) ∧
     (VerifyWithContext (New "test-api-key" [])
        (fun _ => DoOutcome.response 500 "\x7b\x7d")
        { Number := "+1234567890" }).resp = none ∧
     ("\x7b\x7d" : String) ≠ "") :=
  ⟨by decide, by decide, rfl, rfl,
   verify_non200_no_error_field (New "test-api-key" []) "+1234567890" 500 "\x7b\x7d"
     { Error := "", Code := "", Details := none }
     (by decide) (by decide) rfl rfl⟩

end Checkhim
